import Mathlib

set_option maxHeartbeats 1000000

/-!
Verification of the WebRTC signalling server core: a shallow embedding of the
message router (`handleWebSocketMessage`), the connection lifecycle handlers
(`close`, `error`, `pong`), the heartbeat monitor and the send/broadcast
utilities, together with theorems settling the specification's claims.
-/

namespace Signaling

/-- JSON-like runtime values: the payload/target/sender fields of a parsed
wire envelope are untyped in the source (`payload: any`), so we model them
as a small dynamic value type.  `undefV` stands for an absent field. -/
inductive Value where
  | undefV : Value
  | nullV : Value
  | boolV : Bool → Value
  | numV : Int → Value
  | str : String → Value
  | obj : List (String × Value) → Value

mutual

/-- Decidable equality on values (hand-written: the nested `List` blocks
the automatic derivation). -/
def Value.decEq : (a b : Value) → Decidable (a = b)
  | .undefV, .undefV => .isTrue rfl
  | .undefV, .nullV => .isFalse (fun h => Value.noConfusion h)
  | .undefV, .boolV _ => .isFalse (fun h => Value.noConfusion h)
  | .undefV, .numV _ => .isFalse (fun h => Value.noConfusion h)
  | .undefV, .str _ => .isFalse (fun h => Value.noConfusion h)
  | .undefV, .obj _ => .isFalse (fun h => Value.noConfusion h)
  | .nullV, .undefV => .isFalse (fun h => Value.noConfusion h)
  | .nullV, .nullV => .isTrue rfl
  | .nullV, .boolV _ => .isFalse (fun h => Value.noConfusion h)
  | .nullV, .numV _ => .isFalse (fun h => Value.noConfusion h)
  | .nullV, .str _ => .isFalse (fun h => Value.noConfusion h)
  | .nullV, .obj _ => .isFalse (fun h => Value.noConfusion h)
  | .boolV _, .undefV => .isFalse (fun h => Value.noConfusion h)
  | .boolV _, .nullV => .isFalse (fun h => Value.noConfusion h)
  | .boolV x, .boolV y =>
    if h : x = y then .isTrue (by rw [h])
    else .isFalse (fun hh => h (Value.boolV.inj hh))
  | .boolV _, .numV _ => .isFalse (fun h => Value.noConfusion h)
  | .boolV _, .str _ => .isFalse (fun h => Value.noConfusion h)
  | .boolV _, .obj _ => .isFalse (fun h => Value.noConfusion h)
  | .numV _, .undefV => .isFalse (fun h => Value.noConfusion h)
  | .numV _, .nullV => .isFalse (fun h => Value.noConfusion h)
  | .numV _, .boolV _ => .isFalse (fun h => Value.noConfusion h)
  | .numV x, .numV y =>
    if h : x = y then .isTrue (by rw [h])
    else .isFalse (fun hh => h (Value.numV.inj hh))
  | .numV _, .str _ => .isFalse (fun h => Value.noConfusion h)
  | .numV _, .obj _ => .isFalse (fun h => Value.noConfusion h)
  | .str _, .undefV => .isFalse (fun h => Value.noConfusion h)
  | .str _, .nullV => .isFalse (fun h => Value.noConfusion h)
  | .str _, .boolV _ => .isFalse (fun h => Value.noConfusion h)
  | .str _, .numV _ => .isFalse (fun h => Value.noConfusion h)
  | .str x, .str y =>
    if h : x = y then .isTrue (by rw [h])
    else .isFalse (fun hh => h (Value.str.inj hh))
  | .str _, .obj _ => .isFalse (fun h => Value.noConfusion h)
  | .obj _, .undefV => .isFalse (fun h => Value.noConfusion h)
  | .obj _, .nullV => .isFalse (fun h => Value.noConfusion h)
  | .obj _, .boolV _ => .isFalse (fun h => Value.noConfusion h)
  | .obj _, .numV _ => .isFalse (fun h => Value.noConfusion h)
  | .obj _, .str _ => .isFalse (fun h => Value.noConfusion h)
  | .obj fs, .obj gs =>
    match valueFieldsDecEq fs gs with
    | .isTrue h => .isTrue (by rw [h])
    | .isFalse h => .isFalse (fun hh => h (Value.obj.inj hh))

/-- Decidable equality on object field lists. -/
def valueFieldsDecEq : (a b : List (String × Value)) → Decidable (a = b)
  | [], [] => .isTrue rfl
  | [], _ :: _ => .isFalse (fun h => List.noConfusion h)
  | _ :: _, [] => .isFalse (fun h => List.noConfusion h)
  | (k, v) :: rest, (k', v') :: rest' =>
    if hk : k = k' then
      match Value.decEq v v' with
      | .isTrue hv =>
        match valueFieldsDecEq rest rest' with
        | .isTrue hr => .isTrue (by rw [hk, hv, hr])
        | .isFalse hr =>
          .isFalse (fun h => hr (by injection h))
      | .isFalse hv =>
        .isFalse (fun h => by
          injection h with h1 h2
          exact hv (congrArg Prod.snd h1))
    else
      .isFalse (fun h => by
        injection h with h1 h2
        exact hk (congrArg Prod.fst h1))

end

instance : DecidableEq Value := Value.decEq

/-- JavaScript truthiness, as used by checks such as `!message.payload`. -/
def Value.truthy : Value → Bool
  | .undefV => false
  | .nullV => false
  | .boolV b => b
  | .numV n => n != 0
  | .str s => s != ""
  | .obj _ => true

/-- Property lookup on an object's field list. -/
def fieldLookup : List (String × Value) → String → Value
  | [], _ => .undefV
  | (k, v) :: rest, key => if k = key then v else fieldLookup rest key

/-- Optional-chaining property access `v?.key`: `undefined` on non-objects. -/
def Value.getField : Value → String → Value
  | .obj fs, key => fieldLookup fs key
  | _, _ => .undefV

/-- JavaScript `String.prototype.trim`: strip leading and trailing
whitespace (written over the character list so that it evaluates by
kernel reduction). -/
def jsTrim (s : String) : String :=
  String.mk (((s.data.dropWhile Char.isWhitespace).reverse.dropWhile
    Char.isWhitespace).reverse)

/-- The validation pattern `!x || typeof x !== 'string' || x.trim() === ''`
used for `userId` (login) and `pushToken` (register_push). -/
def requiredTrimmedString (v : Value) : Option String :=
  match v with
  | .str s => if jsTrim s = "" then none else some s
  | _ => none

/-- The validation pattern `!x || typeof x !== 'string'` used for `target`
in the relay branch (note: no trim check there). -/
def requiredString (v : Value) : Option String :=
  match v with
  | .str s => if s = "" then none else some s
  | _ => none

/-- A parsed wire envelope (`SignalingMessage` in `types.ts`).  The `type`
is kept as a raw string since the switch has a default branch for unknown
types.  `originalType` is the optional echo field on error replies. -/
structure SignalingMessage where
  type : String
  payload : Value := .undefV
  target : Value := .undefV
  sender : Value := .undefV
  originalType : Option String := none
deriving DecidableEq

/-- Error reply envelope `{type: error, payload: {message}, originalType}`. -/
def errorEnvelope (m : String) (orig : Option String) : SignalingMessage :=
  { type := "error", payload := .obj [("message", .str m)], originalType := orig }

/-- `{type: login_success, payload: {userId}}`. -/
def loginSuccessEnvelope (userId : String) : SignalingMessage :=
  { type := "login_success", payload := .obj [("userId", .str userId)] }

/-- `{type: user_left, payload: {userId}}` departure notice. -/
def userLeftEnvelope (userId : String) : SignalingMessage :=
  { type := "user_left", payload := .obj [("userId", .str userId)] }

/-- The info notice sent when the target is offline but push-registered;
its payload is a bare string in the source. -/
def infoOfflineEnvelope (targetId : String) : SignalingMessage :=
  { type := "info",
    payload := .str ("User " ++ targetId ++ " is offline. Push notification required.") }

/-- `{type: push_registered, payload: {userId}}`. -/
def pushRegisteredEnvelope (userId : String) : SignalingMessage :=
  { type := "push_registered", payload := .obj [("userId", .str userId)] }

/-- WebSocket readyState constants from the `ws` library. -/
def wsOPEN : Nat := 1

def wsCLOSING : Nat := 2

def wsCLOSED : Nat := 3

/-- A `WebSocketClient`: the raw socket (identified by `cid`, standing for
the JS object identity) extended with the ad-hoc fields the server attaches:
`clientId` (provisional id, present until login), `userId` (set by login)
and `isAlive` (heartbeat flag). -/
structure Conn where
  cid : Nat
  clientId : Option String := none
  userId : Option String := none
  isAlive : Bool := true
  readyState : Nat := 1
deriving DecidableEq

/-- The server's mutable state: all socket objects (`conns`, modelling the
heap of `WebSocketClient` objects, addressed by `cid`) and the registry
`clients : Map<string, WebSocketClient>` (stored here as userId → cid so
that the aliasing of the JS map values is modelled faithfully). -/
structure ServerState where
  conns : List Conn
  clients : List (String × Nat)
deriving DecidableEq

/-- `Map.get` / `Map.has` on the registry. -/
def mapLookup : List (String × Nat) → String → Option Nat
  | [], _ => none
  | (k, v) :: rest, key => if k = key then some v else mapLookup rest key

/-- `Map.has`. -/
def mapHas (m : List (String × Nat)) (k : String) : Bool :=
  (mapLookup m k).isSome

/-- `Map.set`: updates in place if the key exists, else appends
(preserving JS `Map` insertion-order iteration). -/
def mapSet : List (String × Nat) → String → Nat → List (String × Nat)
  | [], k, v => [(k, v)]
  | (k', v') :: rest, k, v =>
    if k' = k then (k, v) :: rest else (k', v') :: mapSet rest k v

/-- `Map.delete`: removes the entry for the key (no-op when absent). -/
def mapDelete : List (String × Nat) → String → List (String × Nat)
  | [], _ => []
  | (k', v') :: rest, k =>
    if k' = k then mapDelete rest k else (k', v') :: mapDelete rest k

/-- Dereference a socket object by its identity. -/
def findConn : List Conn → Nat → Option Conn
  | [], _ => none
  | c :: rest, cid => if c.cid = cid then some c else findConn rest cid

/-- Write back a mutated socket object (mutation of the JS object `ws`). -/
def replaceConn (conns : List Conn) (c : Conn) : List Conn :=
  conns.map fun x => if x.cid = c.cid then c else x

/-- Observable side effects of a handler invocation.  `pushNotify` is
included for completeness: the source only logs a placeholder and never
performs a push, so no definition below ever emits it. -/
inductive Effect where
  | send : Nat → SignalingMessage → Effect
  | terminate : Nat → Effect
  | ping : Nat → Effect
  | pushNotify : String → Effect
deriving DecidableEq

/-- `sendWsMessage` (wsUtils): delivers only when the socket is OPEN;
otherwise the source merely logs a warning. -/
def sendWsMessage (c : Conn) (m : SignalingMessage) : List Effect :=
  if c.readyState = wsOPEN then [Effect.send c.cid m] else []

/-- `broadcast` (wsUtils) over an explicit entry list: iterate the registry
entries in order and send to every value except the socket identified with
`senderCid` (the `client !== senderWs` check). -/
def broadcastList (conns : List Conn) :
    List (String × Nat) → SignalingMessage → Nat → List Effect
  | [], _, _ => []
  | e :: rest, m, senderCid =>
    (if e.2 = senderCid then []
     else
       match findConn conns e.2 with
       | some c => sendWsMessage c m
       | none => []) ++ broadcastList conns rest m senderCid

/-- `broadcast(clients, message, senderWs)`. -/
def broadcast (s : ServerState) (m : SignalingMessage) (senderCid : Nat) : List Effect :=
  broadcastList s.conns s.clients m senderCid

/-- External-store failure (a rejected promise from `pg`). -/
inductive DbErr where
  | dbFailure : String → DbErr
deriving DecidableEq

/-- The external store interface (`db.ts`): `getPushToken` and
`saveOrUpdatePushToken`, each able to throw. -/
structure Env where
  getPushToken : String → Except DbErr (Option String)
  saveOrUpdatePushToken : String → String → Except DbErr Unit

/-- Result of one handler invocation: the updated server state plus the
emitted effects, in order. -/
structure HandlerOut where
  state : ServerState
  effects : List Effect
deriving DecidableEq

/-- A runtime exception reaching the dispatcher's outer `catch`. -/
inductive RtErr where
  | thrown : String → RtErr
deriving DecidableEq

/-- The relay family of message types. -/
def relayTypes : List String := ["offer", "answer", "candidate", "message_request"]

/-- `clients.get(targetId)` followed by the `targetClient &&
targetClient.readyState === WebSocket.OPEN` check of the relay branch. -/
def targetLive (s : ServerState) (targetId : String) : Option Conn :=
  match mapLookup s.clients targetId with
  | some tcid =>
    match findConn s.conns tcid with
    | some tc => if tc.readyState = wsOPEN then some tc else none
    | none => none
  | none => none

/-- The offline fallback of the relay branch: query the external store for
a push token for the target and reply info / unreachable / server error. -/
def offlineFallback (ws : Conn) (targetId : String) (msgType : String)
    (s : ServerState) (env : Env) : Except RtErr HandlerOut :=
  match env.getPushToken targetId with
  | .ok (some _) =>
    .ok { state := s, effects := sendWsMessage ws (infoOfflineEnvelope targetId) }
  | .ok none =>
    .ok { state := s,
          effects := sendWsMessage ws (errorEnvelope
            ("User " ++ targetId ++ " is offline and no push token is registered.")
            (some msgType)) }
  | .error _ =>
    .ok { state := s,
          effects := sendWsMessage ws (errorEnvelope
            ("Server error checking offline status for " ++ targetId ++ ".")
            (some msgType)) }

/-- The body of `handleWebSocketMessage`'s `switch` (messageHandler.ts),
translated branch by branch.  The `Except RtErr` layer models the fact
that JS handling can raise; the outer `try`/`catch` is `dispatchBoundary`
below. -/
def messageSwitch (cid : Nat) (msg : SignalingMessage) (s : ServerState)
    (env : Env) : Except RtErr HandlerOut :=
  match findConn s.conns cid with
  | none => .ok { state := s, effects := [] }
  | some ws =>
    if msg.type = "login" then
      match requiredTrimmedString (msg.payload.getField "userId") with
      | none =>
        .ok { state := s,
              effects := sendWsMessage ws (errorEnvelope
                "Valid User ID is required for login" (some msg.type)) }
      | some userId =>
        if mapHas s.clients userId then
          .ok { state := s,
                effects := sendWsMessage ws (errorEnvelope
                  ("User ID " ++ userId ++ " is already taken/logged in.")
                  (some msg.type)) ++ [Effect.terminate cid] }
        else
          let ws2 : Conn := { ws with clientId := none, userId := some userId }
          let s2 : ServerState :=
            { conns := replaceConn s.conns ws2, clients := mapSet s.clients userId cid }
          .ok { state := s2, effects := sendWsMessage ws2 (loginSuccessEnvelope userId) }
    else if msg.type = "register_push" then
      match ws.userId with
      | none =>
        .ok { state := s,
              effects := sendWsMessage ws (errorEnvelope
                "Must be logged in to register push token" (some msg.type)) }
      | some uid =>
        match requiredTrimmedString (msg.payload.getField "pushToken") with
        | none =>
          .ok { state := s,
                effects := sendWsMessage ws (errorEnvelope
                  "Valid push token is required" (some msg.type)) }
        | some tok =>
          match env.saveOrUpdatePushToken uid tok with
          | .ok _ =>
            .ok { state := s, effects := sendWsMessage ws (pushRegisteredEnvelope uid) }
          | .error _ =>
            .ok { state := s,
                  effects := sendWsMessage ws (errorEnvelope
                    "Failed to save push token on server" (some msg.type)) }
    else if msg.type ∈ relayTypes then
      match ws.userId with
      | none =>
        .ok { state := s,
              effects := sendWsMessage ws (errorEnvelope
                "Cannot send message: Not logged in." (some msg.type)) }
      | some senderId =>
        match requiredString msg.target with
        | none =>
          .ok { state := s,
                effects := sendWsMessage ws (errorEnvelope
                  "Target user ID is required." (some msg.type)) }
        | some targetId =>
          if msg.payload.truthy = false then
            .ok { state := s,
                  effects := sendWsMessage ws (errorEnvelope
                    "Payload is missing." (some msg.type)) }
          else
            match targetLive s targetId with
            | some tc =>
              .ok { state := s,
                    effects := sendWsMessage tc { msg with sender := .str senderId } }
            | none => offlineFallback ws targetId msg.type s env
    else
      .ok { state := s,
            effects := sendWsMessage ws (errorEnvelope
              ("Unknown message type: " ++ msg.type) none) }

/-- The outer `try`/`catch` of `handleWebSocketMessage`: an exception from
the switch body is converted into a server-error reply to the originator
carrying the envelope's type as `originalType`. -/
def dispatchBoundary (cid : Nat) (msgType : String) (s : ServerState)
    (body : Except RtErr HandlerOut) : HandlerOut :=
  match body with
  | .ok out => out
  | .error _ =>
    match findConn s.conns cid with
    | some ws =>
      { state := s,
        effects := sendWsMessage ws (errorEnvelope
          ("Server error handling message type " ++ msgType) (some msgType)) }
    | none => { state := s, effects := [] }

/-- `handleWebSocketMessage` (messageHandler.ts): the switch body wrapped
in the outer dispatch boundary.  Its result type is a plain `HandlerOut`:
no exception propagates to the caller. -/
def handleWebSocketMessage (cid : Nat) (msg : SignalingMessage)
    (s : ServerState) (env : Env) : HandlerOut :=
  dispatchBoundary cid msg.type s (messageSwitch cid msg s env)

/-- The `pong` listener: answering a probe is the only place that sets the
`isAlive` flag back to true. -/
def onPong (c : Conn) : Conn := { c with isAlive := true }

/-- The `close` listener (index.ts): if the connection was identified and
its `userId` is present in the registry, delete the entry first, then
broadcast a `user_left` notice over the already-updated registry,
excluding the departing socket; otherwise simple teardown. -/
def onClose (cid : Nat) (s : ServerState) : HandlerOut :=
  match findConn s.conns cid with
  | none => { state := s, effects := [] }
  | some ws =>
    match ws.userId with
    | some userId =>
      if mapHas s.clients userId then
        let s2 : ServerState := { s with clients := mapDelete s.clients userId }
        { state := s2, effects := broadcast s2 (userLeftEnvelope userId) cid }
      else { state := s, effects := [] }
    | none => { state := s, effects := [] }

/-- The `error` listener (index.ts): same registry cleanup and departure
notice as `close`, then terminate the socket unless it is already closing
or closed. -/
def onError (cid : Nat) (s : ServerState) : HandlerOut :=
  match findConn s.conns cid with
  | none => { state := s, effects := [] }
  | some ws =>
    let step1 : HandlerOut :=
      match ws.userId with
      | some userId =>
        if mapHas s.clients userId then
          let s2 : ServerState := { s with clients := mapDelete s.clients userId }
          { state := s2, effects := broadcast s2 (userLeftEnvelope userId) cid }
        else { state := s, effects := [] }
      | none => { state := s, effects := [] }
    if ws.readyState ≠ wsCLOSED ∧ ws.readyState ≠ wsCLOSING then
      { state := step1.state, effects := step1.effects ++ [Effect.terminate cid] }
    else step1

/-- Heartbeat period of the monitor (`setInterval(..., 30000)`). -/
def heartbeatIntervalMs : Nat := 30000

/-- One heartbeat visit to a single socket: terminate it if its `isAlive`
flag is still false, else clear the flag and send a probe. -/
def hbTickConn (c : Conn) : Conn × List Effect :=
  if c.isAlive = false then (c, [Effect.terminate c.cid])
  else ({ c with isAlive := false }, [Effect.ping c.cid])

/-- One tick of the heartbeat interval: visit every open socket in
`wss.clients`. -/
def heartbeatTick (s : ServerState) : ServerState × List Effect :=
  let stepped := s.conns.map fun c => if c.readyState = wsOPEN then hbTickConn c else (c, [])
  ({ s with conns := stepped.map Prod.fst }, (stepped.map Prod.snd).flatten)

/-- The transport-level meaning of `terminate`: the socket becomes CLOSED. -/
def markClosed (s : ServerState) (cid : Nat) : ServerState :=
  { s with conns := s.conns.map fun c =>
      if c.cid = cid then { c with readyState := wsCLOSED } else c }

/-- Forced closure (heartbeat reclamation): terminating a socket closes it
and fires the very same `close` listener as an explicit disconnect. -/
def terminateAndClose (s : ServerState) (cid : Nat) : HandlerOut :=
  onClose cid (markClosed s cid)

/-- Number of occurrences of one effect in an effect list. -/
def countEffect : List Effect → Effect → Nat
  | [], _ => 0
  | x :: rest, e => (if x = e then 1 else 0) + countEffect rest e

/-! ### Concrete scenario data used to exercise the theorems -/

/-- An external store that always succeeds and knows no tokens. -/
def trivialEnv : Env where
  getPushToken := fun _ => .ok none
  saveOrUpdatePushToken := fun _ _ => .ok ()

/-- An external store holding a push token for `carol` only. -/
def carolTokenEnv : Env where
  getPushToken := fun u => if u = "carol" then .ok (some "tok-1") else .ok none
  saveOrUpdatePushToken := fun _ _ => .ok ()

/-- An external store whose reads fail. -/
def failingEnv : Env where
  getPushToken := fun _ => .error (.dbFailure "down")
  saveOrUpdatePushToken := fun _ _ => .error (.dbFailure "down")

def aliceConn : Conn :=
  { cid := 1, clientId := none, userId := some "alice", isAlive := true, readyState := 1 }

def bobConn : Conn :=
  { cid := 2, clientId := none, userId := some "bob", isAlive := true, readyState := 1 }

def anonConn : Conn :=
  { cid := 3, clientId := some "prov-3", userId := none, isAlive := true, readyState := 1 }

def oneUserState : ServerState :=
  { conns := [aliceConn], clients := [("alice", 1)] }

def twoUserState : ServerState :=
  { conns := [aliceConn, bobConn], clients := [("alice", 1), ("bob", 2)] }

def threeConnState : ServerState :=
  { conns := [aliceConn, bobConn, anonConn], clients := [("alice", 1), ("bob", 2)] }

def freshConnState : ServerState := { conns := [anonConn], clients := [] }

def loginAliceMsg : SignalingMessage :=
  { type := "login", payload := .obj [("userId", .str "alice")] }

def loginBobMsg : SignalingMessage :=
  { type := "login", payload := .obj [("userId", .str "bob")] }

def loginBlankMsg : SignalingMessage :=
  { type := "login", payload := .obj [("userId", .str " ")] }

def loginCarolMsg : SignalingMessage :=
  { type := "login", payload := .obj [("userId", .str "carol")] }

def offerToBobMsg : SignalingMessage :=
  { type := "offer", payload := .obj [("sdp", .str "v=0")],
    target := .str "bob", sender := .str "mallory" }

def offerToCarolMsg : SignalingMessage :=
  { type := "offer", payload := .obj [("sdp", .str "v=0")], target := .str "carol" }

/-! ### Basic lemmas about the registry and socket-store operations -/

theorem findConn_eq_cid {l : List Conn} {n : Nat} {c : Conn}
    (h : findConn l n = some c) : c.cid = n := by
  induction l with
  | nil => simp [findConn] at h
  | cons x rest ih =>
    by_cases hx : x.cid = n
    · simp [findConn, hx] at h
      rw [← h]; exact hx
    · simp [findConn, hx] at h
      exact ih h

theorem findConn_mem {l : List Conn} {n : Nat} {c : Conn}
    (h : findConn l n = some c) : c ∈ l := by
  induction l with
  | nil => simp [findConn] at h
  | cons x rest ih =>
    by_cases hx : x.cid = n
    · simp [findConn, hx] at h
      rw [← h]; exact List.mem_cons_self x rest
    · simp [findConn, hx] at h
      exact List.mem_cons_of_mem x (ih h)

theorem findConn_replaceConn {l : List Conn} {n : Nat} {ws c : Conn}
    (h : findConn l n = some ws) (hc : c.cid = n) :
    findConn (replaceConn l c) n = some c := by
  induction l with
  | nil => simp [findConn] at h
  | cons x rest ih =>
    by_cases hx : x.cid = n
    · simp [replaceConn, findConn, hx, hc, List.map_cons]
    · simp [findConn, hx] at h
      simp [replaceConn, List.map_cons] at ih ⊢
      rw [if_neg (by rw [hc]; exact hx), findConn]
      rw [if_neg hx]
      exact ih h

theorem mapLookup_mapSet_self (m : List (String × Nat)) (k : String) (v : Nat) :
    mapLookup (mapSet m k v) k = some v := by
  induction m with
  | nil => simp [mapSet, mapLookup]
  | cons e rest ih =>
    by_cases he : e.1 = k
    · simp [mapSet, he, mapLookup]
    · simp [mapSet, he, mapLookup, ih]

theorem mapLookup_mapDelete_self (m : List (String × Nat)) (k : String) :
    mapLookup (mapDelete m k) k = none := by
  induction m with
  | nil => simp [mapDelete, mapLookup]
  | cons e rest ih =>
    by_cases he : e.1 = k
    · simp [mapDelete, he, ih]
    · simp [mapDelete, he, mapLookup, ih]

theorem mapDelete_of_absent {m : List (String × Nat)} {k : String}
    (h : mapLookup m k = none) : mapDelete m k = m := by
  induction m with
  | nil => simp [mapDelete]
  | cons e rest ih =>
    by_cases he : e.1 = k
    · simp [mapLookup, he] at h
    · simp [mapLookup, he] at h
      simp [mapDelete, he, ih h]

theorem mapSet_length_absent {m : List (String × Nat)} {k : String} (v : Nat)
    (h : mapLookup m k = none) : (mapSet m k v).length = m.length + 1 := by
  induction m with
  | nil => simp [mapSet]
  | cons e rest ih =>
    by_cases he : e.1 = k
    · simp [mapLookup, he] at h
    · simp [mapLookup, he] at h
      simp [mapSet, he, ih h]

theorem mapLookup_mapDelete_ne {m : List (String × Nat)} {k k' : String}
    (h : k' ≠ k) : mapLookup (mapDelete m k) k' = mapLookup m k' := by
  induction m with
  | nil => simp [mapDelete]
  | cons e rest ih =>
    by_cases he : e.1 = k
    · rw [mapDelete, if_pos he, ih, mapLookup, if_neg (by rw [he]; exact fun hh => h hh.symm)]
    · by_cases he' : e.1 = k'
      · rw [mapDelete, if_neg he, mapLookup, if_pos he', mapLookup, if_pos he']
      · rw [mapDelete, if_neg he, mapLookup, if_neg he', mapLookup, if_neg he', ih]

theorem countEffect_append (a b : List Effect) (e : Effect) :
    countEffect (a ++ b) e = countEffect a e + countEffect b e := by
  induction a with
  | nil => simp [countEffect]
  | cons x rest ih => simp [countEffect, ih]; omega

theorem relayTypes_ne {t : String} (h : t ∈ relayTypes) :
    t ≠ "login" ∧ t ≠ "register_push" := by
  simp [relayTypes] at h
  rcases h with h | h | h | h <;> subst h <;> exact ⟨by decide, by decide⟩

theorem findConn_map {l : List Conn} {n : Nat} (f : Conn → Conn)
    (hf : ∀ c, (f c).cid = c.cid) :
    findConn (l.map f) n = (findConn l n).map f := by
  induction l with
  | nil => simp [findConn]
  | cons x rest ih =>
    by_cases hx : x.cid = n
    · simp [findConn, List.map_cons, hf, hx]
    · simp only [List.map_cons, findConn, hf]
      rw [if_neg hx, if_neg hx, ih]

theorem mapDelete_sublist (m : List (String × Nat)) (k : String) :
    (mapDelete m k).Sublist m := by
  induction m with
  | nil => simp [mapDelete]
  | cons e rest ih =>
    by_cases he : e.1 = k
    · rw [mapDelete, if_pos he]
      exact ih.cons e
    · rw [mapDelete, if_neg he]
      exact ih.cons₂ e

/-! ### Per-recipient counting for `broadcast` -/

theorem broadcastList_count_notmem {conns : List Conn}
    {entries : List (String × Nat)} {m : SignalingMessage} {senderCid rcid : Nat}
    (h : rcid ∉ entries.map Prod.snd) :
    countEffect (broadcastList conns entries m senderCid) (Effect.send rcid m) = 0 := by
  induction entries with
  | nil => simp [broadcastList, countEffect]
  | cons e rest ih =>
    simp only [List.map_cons, List.mem_cons, not_or] at h
    obtain ⟨h1, h2⟩ := h
    rw [broadcastList, countEffect_append, ih h2]
    by_cases hs : e.2 = senderCid
    · simp [hs, countEffect]
    · rw [if_neg hs]
      cases hfc : findConn conns e.2 with
      | none => simp [countEffect]
      | some c =>
        have hcid : c.cid = e.2 := findConn_eq_cid hfc
        by_cases hop : c.readyState = wsOPEN
        · simp [sendWsMessage, hop, countEffect, hcid, h1]
          intro hh
          exact absurd hh.symm h1
        · simp [sendWsMessage, hop, countEffect]

theorem broadcastList_count_sender {conns : List Conn}
    {entries : List (String × Nat)} {m : SignalingMessage} {senderCid : Nat} :
    countEffect (broadcastList conns entries m senderCid) (Effect.send senderCid m) = 0 := by
  induction entries with
  | nil => simp [broadcastList, countEffect]
  | cons e rest ih =>
    rw [broadcastList, countEffect_append, ih]
    by_cases hs : e.2 = senderCid
    · simp [hs, countEffect]
    · rw [if_neg hs]
      cases hfc : findConn conns e.2 with
      | none => simp [countEffect]
      | some c =>
        have hcid : c.cid = e.2 := findConn_eq_cid hfc
        by_cases hop : c.readyState = wsOPEN
        · simp [sendWsMessage, hop, countEffect, hcid]
          intro hh
          exact absurd hh hs
        · simp [sendWsMessage, hop, countEffect]

theorem broadcastList_count_once {conns : List Conn}
    {entries : List (String × Nat)} {m : SignalingMessage}
    {senderCid rcid : Nat} {v : String} {rc : Conn}
    (hnd : (entries.map Prod.snd).Nodup)
    (hmem : (v, rcid) ∈ entries)
    (hne : rcid ≠ senderCid)
    (hfind : findConn conns rcid = some rc)
    (hopen : rc.readyState = wsOPEN) :
    countEffect (broadcastList conns entries m senderCid) (Effect.send rcid m) = 1 := by
  induction entries with
  | nil => simp at hmem
  | cons e rest ih =>
    simp only [List.map_cons, List.nodup_cons] at hnd
    obtain ⟨hnotin, hndrest⟩ := hnd
    rcases List.mem_cons.mp hmem with hhead | htail
    · have he2 : e.2 = rcid := by rw [← hhead]
      rw [broadcastList, countEffect_append, if_neg (by rw [he2]; exact hne)]
      rw [he2, hfind]
      have hcid : rc.cid = rcid := findConn_eq_cid hfind
      rw [broadcastList_count_notmem (by rw [← he2]; exact hnotin)]
      simp [sendWsMessage, hopen, countEffect, hcid]
    · have he2 : e.2 ≠ rcid := by
        intro hh
        exact hnotin (by rw [hh]; exact List.mem_map_of_mem Prod.snd htail)
      rw [broadcastList, countEffect_append, ih hndrest htail]
      by_cases hs : e.2 = senderCid
      · simp [hs, countEffect]
      · rw [if_neg hs]
        cases hfc : findConn conns e.2 with
        | none => simp [countEffect]
        | some c =>
          have hcid : c.cid = e.2 := findConn_eq_cid hfc
          by_cases hop : c.readyState = wsOPEN
          · simp [sendWsMessage, hop, countEffect, hcid]
            intro hh
            exact absurd hh he2
          · simp [sendWsMessage, hop, countEffect]

theorem onClose_identified {s : ServerState} {cid : Nat} {ws : Conn} {u : String}
    (hfind : findConn s.conns cid = some ws)
    (huid : ws.userId = some u)
    (hreg : (mapLookup s.clients u).isSome = true) :
    onClose cid s =
      { state := { s with clients := mapDelete s.clients u },
        effects := broadcastList s.conns (mapDelete s.clients u) (userLeftEnvelope u) cid } := by
  simp [onClose, hfind, huid, mapHas, hreg, broadcast]

theorem onError_identified {s : ServerState} {cid : Nat} {ws : Conn} {u : String}
    (hfind : findConn s.conns cid = some ws)
    (huid : ws.userId = some u)
    (hreg : (mapLookup s.clients u).isSome = true) :
    (onError cid s).state = { s with clients := mapDelete s.clients u }
    ∧ ∀ r m', countEffect (onError cid s).effects (Effect.send r m') =
        countEffect (broadcastList s.conns (mapDelete s.clients u)
          (userLeftEnvelope u) cid) (Effect.send r m') := by
  unfold onError
  simp only [hfind, huid, mapHas, hreg, broadcast]
  by_cases hrs : ws.readyState ≠ wsCLOSED ∧ ws.readyState ≠ wsCLOSING
  · rw [if_pos hrs]
    refine ⟨rfl, fun r m' => ?_⟩
    rw [countEffect_append]
    simp [countEffect]
  · rw [if_neg hrs]
    exact ⟨rfl, fun r m' => rfl⟩

/-- C5: for an identified connection registered under `u`, the close (and
error) handler deletes the registry entry first and only then broadcasts
the `user_left` departure notice, computed over the already-updated
registry; the departing socket receives nothing, every remaining open
registered connection receives the notice exactly once — also when the
error and the close event both fire for the same connection — and every
subsequent lookup of `u` in the resulting registry is absent. -/
theorem c5_close_cleanup
    (s : ServerState) (cid : Nat) (ws : Conn) (u : String)
    (hfind : findConn s.conns cid = some ws)
    (huid : ws.userId = some u)
    (hreg : mapLookup s.clients u = some cid)
    (hnd : (s.clients.map Prod.snd).Nodup) :
    ((onClose cid s).state = { s with clients := mapDelete s.clients u }
      ∧ mapLookup (onClose cid s).state.clients u = none
      ∧ (onClose cid s).effects =
          broadcastList s.conns (mapDelete s.clients u) (userLeftEnvelope u) cid
      ∧ countEffect (onClose cid s).effects (Effect.send cid (userLeftEnvelope u)) = 0
      ∧ ∀ v rcid rc, (v, rcid) ∈ (onClose cid s).state.clients → rcid ≠ cid →
          findConn s.conns rcid = some rc → rc.readyState = wsOPEN →
          countEffect (onClose cid s).effects (Effect.send rcid (userLeftEnvelope u)) = 1)
    ∧ (mapLookup (onError cid s).state.clients u = none
      ∧ onClose cid (onError cid s).state =
          { state := (onError cid s).state, effects := [] }
      ∧ ∀ v rcid rc, (v, rcid) ∈ (onError cid s).state.clients → rcid ≠ cid →
          findConn s.conns rcid = some rc → rc.readyState = wsOPEN →
          countEffect ((onError cid s).effects
              ++ (onClose cid (onError cid s).state).effects)
            (Effect.send rcid (userLeftEnvelope u)) = 1) := by
  have hsome : (mapLookup s.clients u).isSome = true := by rw [hreg]; rfl
  have hoc := onClose_identified hfind huid hsome
  have hnd' : ((mapDelete s.clients u).map Prod.snd).Nodup :=
    hnd.sublist ((mapDelete_sublist s.clients u).map Prod.snd)
  have hoe := onError_identified hfind huid hsome
  constructor
  · refine ⟨by rw [hoc], ?_, by rw [hoc], ?_, ?_⟩
    · rw [hoc]
      exact mapLookup_mapDelete_self s.clients u
    · rw [hoc]
      exact broadcastList_count_sender
    · intro v rcid rc hmem hne hf hopen
      rw [hoc] at hmem ⊢
      exact broadcastList_count_once hnd' hmem hne hf hopen
  · have hstate2 : (onError cid s).state = { s with clients := mapDelete s.clients u } := hoe.1
    have hlk : mapLookup (onError cid s).state.clients u = none := by
      rw [hstate2]
      exact mapLookup_mapDelete_self s.clients u
    have hclose2 : onClose cid (onError cid s).state =
        { state := (onError cid s).state, effects := [] } := by
      have hconns : (onError cid s).state.conns = s.conns := by rw [hstate2]
      unfold onClose
      rw [hconns, hfind]
      simp [huid, mapHas, hlk]
    refine ⟨hlk, hclose2, ?_⟩
    intro v rcid rc hmem hne hf hopen
    rw [hclose2, countEffect_append]
    rw [hstate2] at hmem
    rw [hoe.2 rcid (userLeftEnvelope u)]
    rw [broadcastList_count_once hnd' hmem hne hf hopen]
    rfl

theorem offlineFallback_ok_state {ws : Conn} {t ty : String} {s : ServerState}
    {env : Env} {out : HandlerOut}
    (h : offlineFallback ws t ty s env = .ok out) : out.state = s := by
  unfold offlineFallback at h
  split at h <;> (replace h := Except.ok.inj h; rw [← h])

theorem messageSwitch_conns {cid : Nat} {msg : SignalingMessage} {s : ServerState}
    {env : Env} {out : HandlerOut}
    (h : messageSwitch cid msg s env = .ok out) :
    out.state.conns = s.conns
    ∨ ∃ ws u, findConn s.conns cid = some ws
        ∧ out.state.conns
            = replaceConn s.conns { ws with clientId := none, userId := some u } := by
  unfold messageSwitch at h
  split at h
  · left
    replace h := Except.ok.inj h
    rw [← h]
  · rename_i ws hws
    split at h
    · split at h
      · left; replace h := Except.ok.inj h; rw [← h]
      · rename_i u hu
        split at h
        · left; replace h := Except.ok.inj h; rw [← h]
        · right
          replace h := Except.ok.inj h
          exact ⟨ws, u, hws, by rw [← h]⟩
    · split at h
      · split at h
        · left; replace h := Except.ok.inj h; rw [← h]
        · split at h
          · left; replace h := Except.ok.inj h; rw [← h]
          · split at h
            · left; replace h := Except.ok.inj h; rw [← h]
            · left; replace h := Except.ok.inj h; rw [← h]
      · split at h
        · split at h
          · left; replace h := Except.ok.inj h; rw [← h]
          · split at h
            · left; replace h := Except.ok.inj h; rw [← h]
            · split at h
              · left; replace h := Except.ok.inj h; rw [← h]
              · split at h
                · left; replace h := Except.ok.inj h; rw [← h]
                · left; rw [offlineFallback_ok_state h]
        · left; replace h := Except.ok.inj h; rw [← h]

theorem handle_preserves_isAlive (cid : Nat) (msg : SignalingMessage)
    (s : ServerState) (env : Env) :
    ∀ x ∈ (handleWebSocketMessage cid msg s env).state.conns,
      ∃ c ∈ s.conns, c.cid = x.cid ∧ x.isAlive = c.isAlive := by
  intro x hx
  cases hres : messageSwitch cid msg s env with
  | error e =>
    have hcomp : (handleWebSocketMessage cid msg s env).state = s := by
      unfold handleWebSocketMessage dispatchBoundary
      rw [hres]
      cases hfc : findConn s.conns cid <;> rfl
    rw [hcomp] at hx
    exact ⟨x, hx, rfl, rfl⟩
  | ok out =>
    have hcomp : handleWebSocketMessage cid msg s env = out := by
      unfold handleWebSocketMessage
      rw [hres]
      rfl
    rw [hcomp] at hx
    rcases messageSwitch_conns hres with hsame | ⟨ws, u, hws, hrepl⟩
    · rw [hsame] at hx
      exact ⟨x, hx, rfl, rfl⟩
    · rw [hrepl] at hx
      unfold replaceConn at hx
      rcases List.mem_map.mp hx with ⟨y, hy, hxy⟩
      by_cases hyc : y.cid = ({ ws with clientId := none, userId := some u } : Conn).cid
      · rw [if_pos hyc] at hxy
        exact ⟨ws, findConn_mem hws, by rw [← hxy], by rw [← hxy]⟩
      · rw [if_neg hyc] at hxy
        exact ⟨y, hy, by rw [← hxy], by rw [← hxy]⟩

theorem heartbeatTick_terminates_dead {s : ServerState} {c : Conn}
    (hmem : c ∈ s.conns) (hopen : c.readyState = wsOPEN)
    (hdead : c.isAlive = false) :
    Effect.terminate c.cid ∈ (heartbeatTick s).2 := by
  have hfc : (if c.readyState = wsOPEN then hbTickConn c else (c, []))
      = (c, [Effect.terminate c.cid]) := by
    rw [if_pos hopen]
    unfold hbTickConn
    rw [if_pos hdead]
  unfold heartbeatTick
  simp only
  apply List.mem_flatten.mpr
  refine ⟨[Effect.terminate c.cid], ?_, by simp⟩
  rw [List.map_map]
  exact List.mem_map.mpr ⟨c, hmem, by simp [Function.comp, hfc]⟩

theorem heartbeatTick_probes_alive {s : ServerState} {c : Conn}
    (hmem : c ∈ s.conns) (hopen : c.readyState = wsOPEN)
    (halive : c.isAlive = true) :
    { c with isAlive := false } ∈ (heartbeatTick s).1.conns
    ∧ Effect.ping c.cid ∈ (heartbeatTick s).2 := by
  have hfc : (if c.readyState = wsOPEN then hbTickConn c else (c, []))
      = ({ c with isAlive := false }, [Effect.ping c.cid]) := by
    rw [if_pos hopen]
    unfold hbTickConn
    rw [if_neg (by rw [halive]; exact fun hh => Bool.noConfusion hh)]
  constructor
  · unfold heartbeatTick
    simp only
    rw [List.map_map]
    exact List.mem_map.mpr ⟨c, hmem, by simp [Function.comp, hfc]⟩
  · unfold heartbeatTick
    simp only
    apply List.mem_flatten.mpr
    refine ⟨[Effect.ping c.cid], ?_, by simp⟩
    rw [List.map_map]
    exact List.mem_map.mpr ⟨c, hmem, by simp [Function.comp, hfc]⟩

theorem terminateAndClose_identified {s : ServerState} {cid : Nat} {ws : Conn}
    {u : String}
    (hfind : findConn s.conns cid = some ws) (huid : ws.userId = some u)
    (hreg : (mapLookup s.clients u).isSome = true) :
    terminateAndClose s cid =
      { state := { conns := (markClosed s cid).conns,
                   clients := mapDelete s.clients u },
        effects := broadcastList (markClosed s cid).conns (mapDelete s.clients u)
          (userLeftEnvelope u) cid } := by
  have hf : ∀ c : Conn,
      ((fun c => if c.cid = cid then { c with readyState := wsCLOSED } else c) c).cid
        = c.cid := by
    intro c
    by_cases hc : c.cid = cid
    · simp [hc]
    · simp [hc]
  have hf2 : findConn (markClosed s cid).conns cid
      = some { ws with readyState := wsCLOSED } := by
    show findConn (s.conns.map _) cid = _
    rw [findConn_map _ hf, hfind]
    simp [findConn_eq_cid hfind]
  unfold terminateAndClose
  exact onClose_identified hf2 huid hreg

/-! ### Claim theorems -/

/-- C2: every relay-family envelope forwarded to a live target is delivered
with `sender` overwritten to the originating connection's registry-known
`userId`, while `type`, `payload`, `target` (and `originalType`) are passed
through verbatim; nothing else happens. -/
theorem c2_relay_sender_overwrite
    (s : ServerState) (env : Env) (cid tcid : Nat) (ws tc : Conn)
    (msg : SignalingMessage) (senderId targetId : String)
    (hfind : findConn s.conns cid = some ws)
    (hty : msg.type ∈ relayTypes)
    (huid : ws.userId = some senderId)
    (hkey : mapLookup s.clients senderId = some cid)
    (htgt : msg.target = .str targetId)
    (hne : targetId ≠ "")
    (hpl : msg.payload.truthy = true)
    (hlive : mapLookup s.clients targetId = some tcid)
    (htc : findConn s.conns tcid = some tc)
    (hopen : tc.readyState = wsOPEN) :
    handleWebSocketMessage cid msg s env =
      { state := s,
        effects := [Effect.send tcid { msg with sender := Value.str senderId }] }
    ∧ ({ msg with sender := Value.str senderId } : SignalingMessage).type = msg.type
    ∧ ({ msg with sender := Value.str senderId } : SignalingMessage).payload = msg.payload
    ∧ ({ msg with sender := Value.str senderId } : SignalingMessage).target = msg.target
    ∧ ({ msg with sender := Value.str senderId } : SignalingMessage).originalType
        = msg.originalType := by
  obtain ⟨hn1, hn2⟩ := relayTypes_ne hty
  refine ⟨?_, rfl, rfl, rfl, rfl⟩
  have htcid : tc.cid = tcid := findConn_eq_cid htc
  have hsw : messageSwitch cid msg s env =
      .ok { state := s,
            effects := [Effect.send tcid { msg with sender := Value.str senderId }] } := by
    unfold messageSwitch
    rw [hfind]
    simp only [if_neg hn1, if_neg hn2, if_pos hty, huid, htgt]
    simp [requiredString, hne, hpl, targetLive, hlive, htc, hopen, sendWsMessage, htcid]
  unfold handleWebSocketMessage
  rw [hsw]
  rfl

/-- C2 witness: alice relays an offer with a spoofed `sender` to the live
target bob; bob receives it with `sender` rewritten to alice. -/
theorem c2_relay_sender_overwrite_witness :
    handleWebSocketMessage 1 offerToBobMsg twoUserState trivialEnv =
      { state := twoUserState,
        effects := [Effect.send 2 { offerToBobMsg with sender := Value.str "alice" }] }
    ∧ ({ offerToBobMsg with sender := Value.str "alice" } : SignalingMessage).type
        = offerToBobMsg.type
    ∧ ({ offerToBobMsg with sender := Value.str "alice" } : SignalingMessage).payload
        = offerToBobMsg.payload
    ∧ ({ offerToBobMsg with sender := Value.str "alice" } : SignalingMessage).target
        = offerToBobMsg.target
    ∧ ({ offerToBobMsg with sender := Value.str "alice" } : SignalingMessage).originalType
        = offerToBobMsg.originalType :=
  c2_relay_sender_overwrite twoUserState trivialEnv 1 2 aliceConn bobConn
    offerToBobMsg "alice" "bob" (by decide) (by decide) (by decide) (by decide)
    (by decide) (by decide) (by decide) (by decide) (by decide) (by decide)

/-- C9: tearing down a connection that was never identified, or whose
`userId` is no longer in the registry, leaves the registry unchanged,
broadcasts no departure notice and raises no error (the `error` listener at
most terminates the socket itself); and `Map.delete` of an absent key is a
no-op. -/
theorem c9_unregister_absent_noop
    (s : ServerState) (cid : Nat) (ws : Conn)
    (hfind : findConn s.conns cid = some ws)
    (habs : ∀ u, ws.userId = some u → mapLookup s.clients u = none) :
    onClose cid s = { state := s, effects := [] }
    ∧ (onError cid s).state = s
    ∧ (∀ e ∈ (onError cid s).effects, e = Effect.terminate cid)
    ∧ (∀ (m : List (String × Nat)) (u : String),
        mapLookup m u = none → mapDelete m u = m) := by
  have hclose : onClose cid s = { state := s, effects := [] } := by
    unfold onClose
    rw [hfind]
    cases hu : ws.userId with
    | none => simp [hu]
    | some u => simp [hu, mapHas, habs u hu]
  have herr : (onError cid s).state = s ∧ ∀ e ∈ (onError cid s).effects,
      e = Effect.terminate cid := by
    unfold onError
    rw [hfind]
    cases hu : ws.userId with
    | none =>
      by_cases hrs : ws.readyState ≠ wsCLOSED ∧ ws.readyState ≠ wsCLOSING
      · simp [hu, hrs]
      · simp [hu, hrs]
    | some u =>
      by_cases hrs : ws.readyState ≠ wsCLOSED ∧ ws.readyState ≠ wsCLOSING
      · simp [hu, mapHas, habs u hu, hrs]
      · simp [hu, mapHas, habs u hu, hrs]
  exact ⟨hclose, herr.1, herr.2, fun m u h => mapDelete_of_absent h⟩

/-- C9 witness: teardown of the never-identified socket 3 in a registry
holding alice and bob. -/
theorem c9_unregister_absent_noop_witness :
    onClose 3 threeConnState = { state := threeConnState, effects := [] }
    ∧ (onError 3 threeConnState).state = threeConnState
    ∧ (∀ e ∈ (onError 3 threeConnState).effects, e = Effect.terminate 3)
    ∧ (∀ (m : List (String × Nat)) (u : String),
        mapLookup m u = none → mapDelete m u = m) :=
  c9_unregister_absent_noop threeConnState 3 anonConn (by decide)
    (fun u h => by simp [anonConn] at h)

/-- C1 counterexample: the claim quantifies over every login envelope whose
`userId` already has a registry entry, and asserts the incumbent's
connection is untouched and remains functional.  When the incumbent's own
connection re-sends `login` for its own `userId`, the registry entry for
`alice` maps to socket 1 and the handler terminates that very socket: the
incumbent's connection does not remain functional. -/
theorem c1_self_login_counterexample :
    mapLookup oneUserState.clients "alice" = some 1
    ∧ findConn oneUserState.conns 1 = some aliceConn
    ∧ Effect.terminate 1 ∈
        (handleWebSocketMessage 1 loginAliceMsg oneUserState trivialEnv).effects := by
  decide

/-- C1 (amended): for every login envelope naming a `userId` that already
has a registry entry, received on a connection distinct from the incumbent's
registered one, the handler replies an error envelope with `originalType`
login, terminates only the requesting connection, and leaves the whole
server state (registry and every socket record, in particular the
incumbent's) unchanged. -/
theorem c1_login_conflict_rejects_new
    (s : ServerState) (env : Env) (cid icid : Nat) (ws : Conn)
    (msg : SignalingMessage) (u : String)
    (hfind : findConn s.conns cid = some ws)
    (hopen : ws.readyState = wsOPEN)
    (hty : msg.type = "login")
    (hpay : msg.payload.getField "userId" = .str u)
    (hu : jsTrim u ≠ "")
    (hreg : mapLookup s.clients u = some icid)
    (hne : icid ≠ cid) :
    handleWebSocketMessage cid msg s env =
      { state := s,
        effects := [Effect.send cid (errorEnvelope
            ("User ID " ++ u ++ " is already taken/logged in.") (some "login")),
          Effect.terminate cid] }
    ∧ Effect.terminate icid ∉ (handleWebSocketMessage cid msg s env).effects := by
  have hcid : ws.cid = cid := findConn_eq_cid hfind
  have hmain : handleWebSocketMessage cid msg s env =
      { state := s,
        effects := [Effect.send cid (errorEnvelope
            ("User ID " ++ u ++ " is already taken/logged in.") (some "login")),
          Effect.terminate cid] } := by
    have hsw : messageSwitch cid msg s env =
        .ok { state := s,
              effects := [Effect.send cid (errorEnvelope
                  ("User ID " ++ u ++ " is already taken/logged in.") (some "login")),
                Effect.terminate cid] } := by
      unfold messageSwitch
      rw [hfind]
      simp [hty, hpay, requiredTrimmedString, hu, mapHas, hreg, sendWsMessage, hopen, hcid]
    unfold handleWebSocketMessage
    rw [hsw, hty]
    rfl
  refine ⟨hmain, ?_⟩
  rw [hmain]
  simp [hne]

/-- C1 witness: an anonymous second connection (socket 3) tries to log in
as `alice` while socket 1 holds the name. -/
theorem c1_login_conflict_rejects_new_witness :
    handleWebSocketMessage 3 loginAliceMsg threeConnState trivialEnv =
      { state := threeConnState,
        effects := [Effect.send 3 (errorEnvelope
            ("User ID " ++ "alice" ++ " is already taken/logged in.") (some "login")),
          Effect.terminate 3] }
    ∧ Effect.terminate 1 ∉
        (handleWebSocketMessage 3 loginAliceMsg threeConnState trivialEnv).effects :=
  c1_login_conflict_rejects_new threeConnState trivialEnv 3 1 anonConn
    loginAliceMsg "alice" (by decide) (by decide) (by decide) (by decide)
    (by decide) (by decide) (by decide)

/-- C10: a connection already identified and registered as `u` that sends a
second `login {userId: u}` hits the conflict branch against its own
registration: it is sent the already-taken error envelope (with
`originalType` login) and its own socket is terminated, while the handler
itself neither adds nor removes any registry entry. -/
theorem c10_self_login_conflict
    (s : ServerState) (env : Env) (cid : Nat) (ws : Conn)
    (msg : SignalingMessage) (u : String)
    (hfind : findConn s.conns cid = some ws)
    (hopen : ws.readyState = wsOPEN)
    (huid : ws.userId = some u)
    (hreg : mapLookup s.clients u = some cid)
    (hty : msg.type = "login")
    (hpay : msg.payload.getField "userId" = .str u)
    (hu : jsTrim u ≠ "") :
    handleWebSocketMessage cid msg s env =
      { state := s,
        effects := [Effect.send cid (errorEnvelope
            ("User ID " ++ u ++ " is already taken/logged in.") (some "login")),
          Effect.terminate cid] }
    ∧ Effect.terminate cid ∈ (handleWebSocketMessage cid msg s env).effects := by
  have hcid : ws.cid = cid := findConn_eq_cid hfind
  have hmain : handleWebSocketMessage cid msg s env =
      { state := s,
        effects := [Effect.send cid (errorEnvelope
            ("User ID " ++ u ++ " is already taken/logged in.") (some "login")),
          Effect.terminate cid] } := by
    have hsw : messageSwitch cid msg s env =
        .ok { state := s,
              effects := [Effect.send cid (errorEnvelope
                  ("User ID " ++ u ++ " is already taken/logged in.") (some "login")),
                Effect.terminate cid] } := by
      unfold messageSwitch
      rw [hfind]
      simp [hty, hpay, requiredTrimmedString, hu, mapHas, hreg, sendWsMessage, hopen, hcid]
    unfold handleWebSocketMessage
    rw [hsw, hty]
    rfl
  refine ⟨hmain, ?_⟩
  rw [hmain]
  simp

/-- C10 witness: alice (socket 1, registered) re-sends `login` for
`alice` and is terminated by the conflict branch. -/
theorem c10_self_login_conflict_witness :
    handleWebSocketMessage 1 loginAliceMsg twoUserState trivialEnv =
      { state := twoUserState,
        effects := [Effect.send 1 (errorEnvelope
            ("User ID " ++ "alice" ++ " is already taken/logged in.") (some "login")),
          Effect.terminate 1] }
    ∧ Effect.terminate 1 ∈
        (handleWebSocketMessage 1 loginAliceMsg twoUserState trivialEnv).effects :=
  c10_self_login_conflict twoUserState trivialEnv 1 aliceConn loginAliceMsg "alice"
    (by decide) (by decide) (by decide) (by decide) (by decide) (by decide) (by decide)

/-- C4 counterexample: the claim's precondition only requires a non-empty
string `userId`; the whitespace-only `" "` is non-empty, unregistered, and
arrives on a not-yet-identified connection, yet the handler replies the
validation error and registers nothing, because the code additionally
requires `userId.trim() !== ''`. -/
theorem c4_whitespace_login_counterexample :
    (handleWebSocketMessage 3 loginBlankMsg freshConnState trivialEnv).state
      = freshConnState
    ∧ (handleWebSocketMessage 3 loginBlankMsg freshConnState trivialEnv).effects
      = [Effect.send 3 (errorEnvelope "Valid User ID is required for login" (some "login"))] := by
  decide

/-- C4 (amended): for a login envelope on a not-yet-identified connection
whose `userId` is a string that is non-empty after trimming whitespace and
has no registry entry, the handler drops the provisional `clientId`, sets
the connection's `userId`, inserts the mapping into the registry (growing
it by exactly one entry) and replies `login_success` carrying that
`userId`. -/
theorem c4_login_free_registers
    (s : ServerState) (env : Env) (cid : Nat) (ws : Conn)
    (msg : SignalingMessage) (u : String)
    (hfind : findConn s.conns cid = some ws)
    (hanon : ws.userId = none)
    (hopen : ws.readyState = wsOPEN)
    (hty : msg.type = "login")
    (hpay : msg.payload.getField "userId" = .str u)
    (hu : jsTrim u ≠ "")
    (hfree : mapLookup s.clients u = none) :
    handleWebSocketMessage cid msg s env =
      { state := { conns := replaceConn s.conns { ws with clientId := none, userId := some u },
                   clients := mapSet s.clients u cid },
        effects := [Effect.send cid (loginSuccessEnvelope u)] }
    ∧ findConn (handleWebSocketMessage cid msg s env).state.conns cid =
        some { ws with clientId := none, userId := some u }
    ∧ mapLookup (handleWebSocketMessage cid msg s env).state.clients u = some cid
    ∧ (handleWebSocketMessage cid msg s env).state.clients.length
        = s.clients.length + 1 := by
  have hcid : ws.cid = cid := findConn_eq_cid hfind
  have hmain : handleWebSocketMessage cid msg s env =
      { state := { conns := replaceConn s.conns { ws with clientId := none, userId := some u },
                   clients := mapSet s.clients u cid },
        effects := [Effect.send cid (loginSuccessEnvelope u)] } := by
    have hsw : messageSwitch cid msg s env =
        .ok { state := { conns := replaceConn s.conns { ws with clientId := none, userId := some u },
                         clients := mapSet s.clients u cid },
              effects := [Effect.send cid (loginSuccessEnvelope u)] } := by
      unfold messageSwitch
      rw [hfind]
      simp [hty, hpay, requiredTrimmedString, hu, mapHas, hfree, sendWsMessage, hopen, hcid]
    unfold handleWebSocketMessage
    rw [hsw]
    rfl
  refine ⟨hmain, ?_, ?_, ?_⟩
  · rw [hmain]
    exact findConn_replaceConn hfind hcid
  · rw [hmain]
    exact mapLookup_mapSet_self s.clients u cid
  · rw [hmain]
    exact mapSet_length_absent cid hfree

/-- C4 witness: the anonymous socket 3 logs in as the free name `carol`. -/
theorem c4_login_free_registers_witness :
    handleWebSocketMessage 3 loginCarolMsg freshConnState trivialEnv =
      { state := { conns := replaceConn freshConnState.conns
                     { anonConn with clientId := none, userId := some "carol" },
                   clients := mapSet freshConnState.clients "carol" 3 },
        effects := [Effect.send 3 (loginSuccessEnvelope "carol")] }
    ∧ findConn (handleWebSocketMessage 3 loginCarolMsg freshConnState trivialEnv).state.conns 3 =
        some { anonConn with clientId := none, userId := some "carol" }
    ∧ mapLookup (handleWebSocketMessage 3 loginCarolMsg freshConnState trivialEnv).state.clients
        "carol" = some 3
    ∧ (handleWebSocketMessage 3 loginCarolMsg freshConnState trivialEnv).state.clients.length
        = freshConnState.clients.length + 1 :=
  c4_login_free_registers freshConnState trivialEnv 3 anonConn loginCarolMsg "carol"
    (by decide) (by decide) (by decide) (by decide) (by decide) (by decide) (by decide)

/-- C3: the Login handler has no guard on already-identified connections.
Socket 1 is identified and registered as `alice`; on receiving
`login {userId: bob}` (with `bob` free) the code changes the connection's
`userId` to `bob`, registers it a second time under `bob` while the stale
`alice` entry still maps to socket 1, and replies `login_success` — the
claimed one-way, one-time login transition is violated by the code. -/
theorem c3_relogin_changes_identity :
    findConn (handleWebSocketMessage 1 loginBobMsg oneUserState trivialEnv).state.conns 1 =
      some { cid := 1, clientId := none, userId := some "bob", isAlive := true, readyState := 1 }
    ∧ mapLookup (handleWebSocketMessage 1 loginBobMsg oneUserState trivialEnv).state.clients
        "alice" = some 1
    ∧ mapLookup (handleWebSocketMessage 1 loginBobMsg oneUserState trivialEnv).state.clients
        "bob" = some 1
    ∧ (handleWebSocketMessage 1 loginBobMsg oneUserState trivialEnv).effects
        = [Effect.send 1 (loginSuccessEnvelope "bob")] := by
  decide

/-- C5 witness: alice (socket 1) departs from a registry holding alice and
bob; her entry is gone, bob receives exactly one `user_left {alice}`, and
the departing socket receives none. -/
theorem c5_close_cleanup_witness :
    mapLookup (onClose 1 twoUserState).state.clients "alice" = none
    ∧ countEffect (onClose 1 twoUserState).effects
        (Effect.send 2 (userLeftEnvelope "alice")) = 1
    ∧ countEffect (onClose 1 twoUserState).effects
        (Effect.send 1 (userLeftEnvelope "alice")) = 0 := by
  have h := c5_close_cleanup twoUserState 1 aliceConn "alice"
    (by decide) (by decide) (by decide) (by decide)
  exact ⟨h.1.2.1, h.1.2.2.2.2 "bob" 2 bobConn (by decide) (by decide) (by decide) (by decide),
    h.1.2.2.2.1⟩

/-- C7: a relay envelope from an identified connection to a target with no
open registry entry is forwarded to no one; depending on the external
store, the originator alone receives the info notice (token found), the
unreachable error (no token), or the server-error reply (store failure),
and the core emits no push and no delivery to the target in any case. -/
theorem c7_relay_offline_fallback
    (s : ServerState) (env : Env) (cid : Nat) (ws : Conn)
    (msg : SignalingMessage) (senderId targetId : String)
    (hfind : findConn s.conns cid = some ws)
    (hopen : ws.readyState = wsOPEN)
    (hty : msg.type ∈ relayTypes)
    (huid : ws.userId = some senderId)
    (htgt : msg.target = .str targetId)
    (hne : targetId ≠ "")
    (hpl : msg.payload.truthy = true)
    (hoff : targetLive s targetId = none) :
    (∀ tok, env.getPushToken targetId = .ok (some tok) →
      handleWebSocketMessage cid msg s env =
        { state := s, effects := [Effect.send cid (infoOfflineEnvelope targetId)] })
    ∧ (env.getPushToken targetId = .ok none →
      handleWebSocketMessage cid msg s env =
        { state := s,
          effects := [Effect.send cid (errorEnvelope
            ("User " ++ targetId ++ " is offline and no push token is registered.")
            (some msg.type))] })
    ∧ (∀ e, env.getPushToken targetId = .error e →
      handleWebSocketMessage cid msg s env =
        { state := s,
          effects := [Effect.send cid (errorEnvelope
            ("Server error checking offline status for " ++ targetId ++ ".")
            (some msg.type))] })
    ∧ (∀ eff ∈ (handleWebSocketMessage cid msg s env).effects,
        ∃ mm, eff = Effect.send cid mm) := by
  obtain ⟨hn1, hn2⟩ := relayTypes_ne hty
  have hcid : ws.cid = cid := findConn_eq_cid hfind
  have hsw : messageSwitch cid msg s env = offlineFallback ws targetId msg.type s env := by
    unfold messageSwitch
    rw [hfind]
    simp only [if_neg hn1, if_neg hn2, if_pos hty, huid, htgt]
    simp [requiredString, hne, hpl, hoff]
  have hmain : ∀ out, offlineFallback ws targetId msg.type s env = .ok out →
      handleWebSocketMessage cid msg s env = out := by
    intro out h
    unfold handleWebSocketMessage
    rw [hsw, h]
    rfl
  refine ⟨?_, ?_, ?_, ?_⟩
  · intro tok hdb
    apply hmain
    unfold offlineFallback
    rw [hdb]
    simp [sendWsMessage, hopen, hcid]
  · intro hdb
    apply hmain
    unfold offlineFallback
    rw [hdb]
    simp [sendWsMessage, hopen, hcid]
  · intro e hdb
    apply hmain
    unfold offlineFallback
    rw [hdb]
    simp [sendWsMessage, hopen, hcid]
  · intro eff heff
    cases hdb : env.getPushToken targetId with
    | ok o =>
      cases o with
      | some tok =>
        have h := hmain _ (by unfold offlineFallback; rw [hdb])
        rw [h] at heff
        simp [sendWsMessage, hopen, hcid] at heff
        exact ⟨_, heff⟩
      | none =>
        have h := hmain _ (by unfold offlineFallback; rw [hdb])
        rw [h] at heff
        simp [sendWsMessage, hopen, hcid] at heff
        exact ⟨_, heff⟩
    | error e =>
      have h := hmain _ (by unfold offlineFallback; rw [hdb])
      rw [h] at heff
      simp [sendWsMessage, hopen, hcid] at heff
      exact ⟨_, heff⟩

/-- C7 witness: alice offers to the absent `carol`, whose push token is on
file, and alone receives the info notice. -/
theorem c7_relay_offline_fallback_witness :
    handleWebSocketMessage 1 offerToCarolMsg twoUserState carolTokenEnv =
      { state := twoUserState, effects := [Effect.send 1 (infoOfflineEnvelope "carol")] } :=
  (c7_relay_offline_fallback twoUserState carolTokenEnv 1 aliceConn offerToCarolMsg
    "alice" "carol" (by decide) (by decide) (by decide) (by decide) (by decide)
    (by decide) (by decide) (by decide)).1 "tok-1" (by rfl)

/-- C8: `handleWebSocketMessage` is the switch body run inside the outer
dispatch boundary, so its result type carries no exception — nothing
propagates to the caller; and whenever the body raises, the boundary
replies to the (open) originator a server-error envelope whose
`originalType` is the inbound envelope's type, and never terminates any
connection. -/
theorem c8_dispatch_exception_boundary :
    (∀ (cid : Nat) (msg : SignalingMessage) (s : ServerState) (env : Env),
      handleWebSocketMessage cid msg s env =
        dispatchBoundary cid msg.type s (messageSwitch cid msg s env))
    ∧ (∀ (cid : Nat) (t : String) (s : ServerState) (ws : Conn) (err : RtErr),
        findConn s.conns cid = some ws → ws.readyState = wsOPEN →
        dispatchBoundary cid t s (Except.error err) =
          { state := s,
            effects := [Effect.send cid (errorEnvelope
              ("Server error handling message type " ++ t) (some t))] })
    ∧ (∀ (cid : Nat) (t : String) (s : ServerState) (err : RtErr) (n : Nat),
        Effect.terminate n ∉ (dispatchBoundary cid t s (Except.error err)).effects)
    ∧ (∀ (cid : Nat) (t : String) (s : ServerState) (err : RtErr),
        (dispatchBoundary cid t s (Except.error err)).state = s) := by
  refine ⟨fun _ _ _ _ => rfl, ?_, ?_, ?_⟩
  · intro cid t s ws err hfind hopen
    have hcid : ws.cid = cid := findConn_eq_cid hfind
    unfold dispatchBoundary
    rw [hfind]
    simp [sendWsMessage, hopen, hcid]
  · intro cid t s err n
    unfold dispatchBoundary
    cases hfc : findConn s.conns cid with
    | none => simp
    | some ws =>
      by_cases hop : ws.readyState = wsOPEN
      · simp [sendWsMessage, hop]
      · simp [sendWsMessage, hop]
  · intro cid t s err
    unfold dispatchBoundary
    cases hfc : findConn s.conns cid with
    | none => simp
    | some ws => simp

/-- C8 witness: a raised exception while socket 1 handles an `offer` is
converted into the server-error reply with `originalType` offer; no
termination, state unchanged. -/
theorem c8_dispatch_exception_boundary_witness :
    dispatchBoundary 1 "offer" oneUserState (Except.error (RtErr.thrown "boom")) =
      { state := oneUserState,
        effects := [Effect.send 1 (errorEnvelope
          ("Server error handling message type " ++ "offer") (some "offer"))] }
    ∧ Effect.terminate 1 ∉
        (dispatchBoundary 1 "offer" oneUserState
          (Except.error (RtErr.thrown "boom"))).effects :=
  ⟨c8_dispatch_exception_boundary.2.1 1 "offer" oneUserState aliceConn
      (RtErr.thrown "boom") (by decide) (by decide),
   c8_dispatch_exception_boundary.2.2.1 1 "offer" oneUserState (RtErr.thrown "boom") 1⟩

/-- C6: on each heartbeat tick, every open socket with a false `alive` flag
is forcibly terminated while every other open socket has its flag cleared
and is sent a probe; only the pong handler sets the flag back to true (the
message router preserves it); hence an open socket that answers no probe is
terminated by the second tick — within two probe intervals of 30000 ms —
and its termination drives the same cleanup (registry removal then
departure notice) as an explicit disconnect. -/
theorem c6_heartbeat_reclamation :
    (∀ c : Conn, c.isAlive = false → hbTickConn c = (c, [Effect.terminate c.cid]))
    ∧ (∀ c : Conn, c.isAlive = true →
        hbTickConn c = ({ c with isAlive := false }, [Effect.ping c.cid]))
    ∧ (∀ c : Conn, (onPong c).isAlive = true)
    ∧ (∀ (cid : Nat) (msg : SignalingMessage) (s : ServerState) (env : Env),
        ∀ x ∈ (handleWebSocketMessage cid msg s env).state.conns,
          ∃ c ∈ s.conns, c.cid = x.cid ∧ x.isAlive = c.isAlive)
    ∧ (∀ (s : ServerState) (c : Conn), c ∈ s.conns → c.readyState = wsOPEN →
        c.isAlive = true →
        { c with isAlive := false } ∈ (heartbeatTick s).1.conns
        ∧ Effect.ping c.cid ∈ (heartbeatTick s).2
        ∧ Effect.terminate c.cid ∈ (heartbeatTick (heartbeatTick s).1).2)
    ∧ (∀ (s : ServerState) (c : Conn), c ∈ s.conns → c.readyState = wsOPEN →
        c.isAlive = false → Effect.terminate c.cid ∈ (heartbeatTick s).2)
    ∧ (∀ (s : ServerState) (cid : Nat) (ws : Conn) (u : String),
        findConn s.conns cid = some ws → ws.userId = some u →
        (mapLookup s.clients u).isSome = true →
        terminateAndClose s cid = onClose cid (markClosed s cid)
        ∧ mapLookup (terminateAndClose s cid).state.clients u = none
        ∧ (terminateAndClose s cid).effects =
            broadcastList (markClosed s cid).conns (mapDelete s.clients u)
              (userLeftEnvelope u) cid)
    ∧ heartbeatIntervalMs = 30000 := by
  refine ⟨?_, ?_, fun c => rfl, ?_, ?_, ?_, ?_, rfl⟩
  · intro c h
    unfold hbTickConn
    rw [if_pos h]
  · intro c h
    unfold hbTickConn
    rw [if_neg (by rw [h]; exact fun hh => Bool.noConfusion hh)]
  · exact handle_preserves_isAlive
  · intro s c hmem hopen halive
    obtain ⟨hmem1, hping⟩ := heartbeatTick_probes_alive hmem hopen halive
    refine ⟨hmem1, hping, ?_⟩
    have ht := heartbeatTick_terminates_dead (s := (heartbeatTick s).1)
      (c := { c with isAlive := false }) hmem1 hopen rfl
    exact ht
  · intro s c hmem hopen hdead
    exact heartbeatTick_terminates_dead hmem hopen hdead
  · intro s cid ws u hfind huid hreg
    have ht := terminateAndClose_identified hfind huid hreg
    refine ⟨rfl, ?_, by rw [ht]⟩
    rw [ht]
    exact mapLookup_mapDelete_self s.clients u

/-- C6 witness: in the two-user state, a tick clears alice's flag and
probes her; with no pong, the next tick terminates socket 1; forced
closure of socket 1 removes `alice` from the registry. -/
theorem c6_heartbeat_reclamation_witness :
    ({ aliceConn with isAlive := false } ∈ (heartbeatTick twoUserState).1.conns
      ∧ Effect.ping aliceConn.cid ∈ (heartbeatTick twoUserState).2
      ∧ Effect.terminate aliceConn.cid ∈ (heartbeatTick (heartbeatTick twoUserState).1).2)
    ∧ mapLookup (terminateAndClose twoUserState 1).state.clients "alice" = none :=
  ⟨c6_heartbeat_reclamation.2.2.2.2.1 twoUserState aliceConn (by decide) (by decide)
      (by decide),
   (c6_heartbeat_reclamation.2.2.2.2.2.2.1 twoUserState 1 aliceConn "alice"
      (by decide) (by decide) (by decide)).2.1⟩

end Signaling
